import Mathlib

/-!
# rossumo: the joystick teleoperation node and the ROS bridge

A shallow embedding of `src/sumo_teleop_joy.cpp` (the callback `joy_cb` with the
globals it reads and writes) and of `src/rossumo.cpp` (the class `RosSumo`), and
the properties of both that the specification states.

Conventions of the embedding.

* Axis readings (`float32`) and scale factors (`double`) are rational numbers; the
  products of `joy_cb` are the exact products.  The threshold `0.9` is `9/10`: no
  `float32` lies between `9/10` and the `double` nearest to it, so the comparison
  `fabs(x) > 0.9` of the source agrees with `|x| > 9/10` on every reading.
* The four angles that `joy_cb` stores in a `std_msgs::Float32` are kept as the
  constant expressions of the source (`M_PI_2`, `-M_PI_2`, `2 * M_PI`, `-M_PI`).
* `operator[]` of `std::vector` outside the bounds has no defined behaviour: a read
  outside the bounds makes the embedded function return `none`.
* Publishing is recorded as the list of published messages, in program order;
  `ROS_WARN` and `ROS_INFO` lines are not recorded.
* `rossumo/light_sumo.h` (the class `LightSumo`) is not among the sources: a call
  into it is recorded as a call, and what it answers is an input (`World`).
* The `uint8_t` argument of a change handler is a natural number; no handler
  computes with it.
-/

namespace Rossumo

/-! ## `sumo_teleop_joy.cpp` -/

/-- The fields of `sensor_msgs::Joy` that `joy_cb` reads. -/
structure Joy where
  axes : List ℚ
  buttons : List Int
deriving DecidableEq

/-- The globals of lines 32-34 that `main` fills from the private parameters
(lines 115-123); the defaults are the initialisers of the source. -/
structure Config where
  axis_linear : Int := 1
  axis_angular : Int := 2
  axis_90turn : Int := 3
  axis_180turn : Int := 4
  button_high_jump : Int := 1
  button_posture : Int := 2
  button_anim : Int := 3
  scale_linear : ℚ := 1
  scale_angular : ℚ := 1
deriving DecidableEq

/-- Line 124 of `main`: the value of the global `maxaxis` when `joy_cb` runs. -/
def Config.maxaxis (c : Config) : Int :=
  max c.axis_linear (max c.axis_angular (max c.axis_90turn c.axis_180turn))

/-- Line 125 of `main`: the value of the global `maxbutton` when `joy_cb` runs. -/
def Config.maxbutton (c : Config) : Int :=
  max c.button_anim (max c.button_high_jump c.button_posture)

/-- The globals of lines 35-38 that `joy_cb` mutates. -/
structure State where
  posture : String := "jumper"
  high_jump_before : Bool := false
  posture_before : Bool := false
  anim_before : Bool := false
  axis_90before : Bool := false
  axis_180before : Bool := false
  string_msg : String := ""
deriving DecidableEq

/-- The constant expressions assigned to `msg.data` of a sharp turn. -/
inductive Angle where
  | M_PI_2
  | neg_M_PI_2
  | two_M_PI
  | neg_M_PI
deriving DecidableEq, Repr

/-- A `geometry_msgs::Twist`; the default constructor zeroes every field. -/
structure Twist where
  linear_x : ℚ := 0
  linear_y : ℚ := 0
  linear_z : ℚ := 0
  angular_x : ℚ := 0
  angular_y : ℚ := 0
  angular_z : ℚ := 0
deriving DecidableEq

/-- One `publish` call of `joy_cb`, named after the topic of its publisher
(lines 129-133). -/
inductive Msg where
  | sharp_turn (data : Angle)
  | high_jump
  | set_posture (data : String)
  | anim (data : String)
  | cmd_vel (vel : Twist)
deriving DecidableEq

/-- The element `xs[i]` for an `int` index: defined only inside the bounds. -/
def readAt {α : Type} (xs : List α) (i : Int) : Option α :=
  if 0 ≤ i then xs.get? i.toNat else none

/-- The two count checks of lines 45-52: `true` when `joy_cb` goes on to line 53. -/
def accepted (cfg : Config) (joy : Joy) : Bool :=
  !(decide ((joy.axes.length : Int) ≤ cfg.maxaxis)) &&
  !(decide ((joy.buttons.length : Int) ≤ cfg.maxbutton))

/-- Lines 83-85: the next value of the global `posture`. -/
def nextPosture (posture : String) : String :=
  if posture = "standing" then "jumper"
  else if posture = "jumper" then "kicker"
  else "standing"

/-- Lines 53-98 of `joy_cb` on the five values it reads: the new globals, the
messages published so far and the final value of `command_sent`. -/
def detectors (st : State) (a90 a180 : ℚ) (bjump bposture banim : Int) :
    State × List Msg × Bool :=
  let command_sent := false
  let out : List Msg := []
  -- sharp turns at 90°
  let axis_90now : Bool := decide (|a90| > 9 / 10)
  let fire90 : Bool := axis_90now && !st.axis_90before
  let out := if fire90 then
    out ++ [Msg.sharp_turn (if a90 < 0 then Angle.M_PI_2 else Angle.neg_M_PI_2)] else out
  let command_sent := if fire90 then true else command_sent
  let st := { st with axis_90before := axis_90now }
  -- sharp turns at 180°
  let axis_180now : Bool := decide (|a180| > 9 / 10)
  let fire180 : Bool := axis_180now && !st.axis_180before
  let out := if fire180 then
    out ++ [Msg.sharp_turn (if a180 > 0 then Angle.two_M_PI else Angle.neg_M_PI)] else out
  let command_sent := if fire180 then true else command_sent
  let st := { st with axis_180before := axis_180now }
  -- jumps
  let fireJump : Bool := decide (bjump ≠ 0) && !st.high_jump_before
  let out := if fireJump then out ++ [Msg.high_jump] else out
  let command_sent := if fireJump then true else command_sent
  let st := { st with high_jump_before := decide (bjump ≠ 0) }
  -- postures
  let firePosture : Bool := decide (bposture ≠ 0) && !st.posture_before
  let st := if firePosture then
    { st with posture := nextPosture st.posture, string_msg := nextPosture st.posture } else st
  let out := if firePosture then out ++ [Msg.set_posture st.string_msg] else out
  let command_sent := if firePosture then true else command_sent
  let st := { st with posture_before := decide (bposture ≠ 0) }
  -- anims
  let fireAnim : Bool := decide (banim ≠ 0) && !st.anim_before
  let st := if fireAnim then { st with string_msg := "tap" } else st
  let out := if fireAnim then out ++ [Msg.anim st.string_msg] else out
  let command_sent := if fireAnim then true else command_sent
  let st := { st with anim_before := decide (banim ≠ 0) }
  (st, out, command_sent)

/-- The callback `joy_cb` (lines 43-107): the new globals and the messages it
publishes, or `none` when it reads a vector outside its bounds. -/
def joy_cb (cfg : Config) (st : State) (joy : Joy) : Option (State × List Msg) :=
  if (joy.axes.length : Int) ≤ cfg.maxaxis then some (st, [])
  else if (joy.buttons.length : Int) ≤ cfg.maxbutton then some (st, [])
  else
    (readAt joy.axes cfg.axis_90turn).bind fun a90 =>
    (readAt joy.axes cfg.axis_180turn).bind fun a180 =>
    (readAt joy.buttons cfg.button_high_jump).bind fun bjump =>
    (readAt joy.buttons cfg.button_posture).bind fun bposture =>
    (readAt joy.buttons cfg.button_anim).bind fun banim =>
    let r := detectors st a90 a180 bjump bposture banim
    if r.2.2 then some (r.1, r.2.1)
    else
      (readAt joy.axes cfg.axis_linear).bind fun lin =>
      (readAt joy.axes cfg.axis_angular).bind fun ang =>
      some (r.1, r.2.1 ++
        [Msg.cmd_vel { linear_x := lin * cfg.scale_linear, angular_z := ang * cfg.scale_angular }])

/-- The callback run on a sequence of samples, one after the other: the final
globals and the messages of each tick. -/
def run (cfg : Config) : State → List Joy → Option (State × List (List Msg))
  | st, [] => some (st, [])
  | st, joy :: rest =>
    (joy_cb cfg st joy).bind fun r =>
    (run cfg r.1 rest).bind fun r2 => some (r2.1, r.2 :: r2.2)


/-! ### Vocabulary of the properties of `joy_cb` -/

/-- Every configured index is non-negative. -/
def Config.nonneg (c : Config) : Prop :=
  0 ≤ c.axis_linear ∧ 0 ≤ c.axis_angular ∧ 0 ≤ c.axis_90turn ∧ 0 ≤ c.axis_180turn ∧
  0 ≤ c.button_high_jump ∧ 0 ≤ c.button_posture ∧ 0 ≤ c.button_anim

instance (c : Config) : Decidable c.nonneg := by
  unfold Config.nonneg; infer_instance

/-- The five edge detectors of `joy_cb`, in program order. -/
inductive Detector where
  | turn90
  | turn180
  | high_jump
  | posture
  | anim
deriving DecidableEq

/-- The condition of an axis detector: `fabs(x) > 0.9`. -/
def axisActive (x : ℚ) : Bool := decide (|x| > 9 / 10)

/-- The condition of a button detector: the reading is non-zero. -/
def buttonActive (b : Int) : Bool := decide (b ≠ 0)

/-- The test of lines 56, 65, 74, 82 and 93: active now and not before. -/
def fires (now before : Bool) : Bool := now && !before

/-- The condition of each detector on the five values that `joy_cb` reads. -/
def condOf (a90 a180 : ℚ) (bj bp ba : Int) : Detector → Bool
  | .turn90 => axisActive a90
  | .turn180 => axisActive a180
  | .high_jump => buttonActive bj
  | .posture => buttonActive bp
  | .anim => buttonActive ba

/-- The condition of a detector in a sample: the absolute axis reading is above
0.9, or the button reading is non-zero. -/
def active (cfg : Config) (d : Detector) (joy : Joy) : Bool :=
  match d with
  | .turn90 => match readAt joy.axes cfg.axis_90turn with
    | some x => decide (|x| > 9 / 10)
    | none => false
  | .turn180 => match readAt joy.axes cfg.axis_180turn with
    | some x => decide (|x| > 9 / 10)
    | none => false
  | .high_jump => match readAt joy.buttons cfg.button_high_jump with
    | some b => decide (b ≠ 0)
    | none => false
  | .posture => match readAt joy.buttons cfg.button_posture with
    | some b => decide (b ≠ 0)
    | none => false
  | .anim => match readAt joy.buttons cfg.button_anim with
    | some b => decide (b ≠ 0)
    | none => false

/-- The five values that lines 55-98 read from a sample. -/
def Detector.reading (cfg : Config) (joy : Joy) (a90 a180 : ℚ) (bj bp ba : Int) : Prop :=
  readAt joy.axes cfg.axis_90turn = some a90 ∧ readAt joy.axes cfg.axis_180turn = some a180 ∧
  readAt joy.buttons cfg.button_high_jump = some bj ∧
  readAt joy.buttons cfg.button_posture = some bp ∧
  readAt joy.buttons cfg.button_anim = some ba

/-- The `..._before` flag of a detector. -/
def State.before (st : State) : Detector → Bool
  | .turn90 => st.axis_90before
  | .turn180 => st.axis_180before
  | .high_jump => st.high_jump_before
  | .posture => st.posture_before
  | .anim => st.anim_before

/-- All detectors idle: the initial value of the five flags (lines 36-37). -/
def State.idle (st : State) : Prop :=
  st.axis_90before = false ∧ st.axis_180before = false ∧ st.high_jump_before = false ∧
  st.posture_before = false ∧ st.anim_before = false

instance (st : State) : Decidable st.idle := by
  unfold State.idle; infer_instance

/-- The messages that a detector publishes: the 90° detector the angles
`M_PI_2` and `-M_PI_2`, the 180° detector the angles `2 * M_PI` and `-M_PI`. -/
def Detector.owns : Detector → Msg → Bool
  | .turn90, .sharp_turn .M_PI_2 => true
  | .turn90, .sharp_turn .neg_M_PI_2 => true
  | .turn180, .sharp_turn .two_M_PI => true
  | .turn180, .sharp_turn .neg_M_PI => true
  | .high_jump, .high_jump => true
  | .posture, .set_posture _ => true
  | .anim, .anim _ => true
  | _, _ => false

/-- How many commands of a detector a tick published. -/
def emitted (d : Detector) (out : List Msg) : Nat := (out.filter d.owns).length

/-- The velocity commands among the published messages. -/
def velocities (out : List Msg) : List Twist :=
  out.filterMap fun m => match m with
    | .cmd_vel v => some v
    | _ => none

/-- The angles of the sharp turns among the published messages. -/
def sharpTurns (out : List Msg) : List Angle :=
  out.filterMap fun m => match m with
    | .sharp_turn a => some a
    | _ => none

/-- The posture-set values among the published messages. -/
def postures (out : List Msg) : List String :=
  out.filterMap fun m => match m with
    | .set_posture p => some p
    | _ => none

/-- The condition of a detector in the last accepted sample of `pre`; `false` when
no sample was accepted yet. -/
def prevActive (cfg : Config) (d : Detector) (pre : List Joy) : Bool :=
  match (pre.filter (accepted cfg)).getLast? with
  | none => false
  | some p => active cfg d p

/-- The messages of line 59, when the 90° detector fires. -/
def out90 (st : State) (a90 : ℚ) : List Msg :=
  if fires (axisActive a90) st.axis_90before then
    [Msg.sharp_turn (if a90 < 0 then Angle.M_PI_2 else Angle.neg_M_PI_2)] else []

/-- The messages of line 68, when the 180° detector fires. -/
def out180 (st : State) (a180 : ℚ) : List Msg :=
  if fires (axisActive a180) st.axis_180before then
    [Msg.sharp_turn (if a180 > 0 then Angle.two_M_PI else Angle.neg_M_PI)] else []

/-- The messages of line 76, when the high-jump detector fires. -/
def outJump (st : State) (b : Int) : List Msg :=
  if fires (buttonActive b) st.high_jump_before then [Msg.high_jump] else []

/-- The messages of line 87, when the posture detector fires. -/
def outPosture (st : State) (b : Int) : List Msg :=
  if fires (buttonActive b) st.posture_before then
    [Msg.set_posture (nextPosture st.posture)] else []

/-- The messages of line 95, when the animation detector fires. -/
def outAnim (st : State) (b : Int) : List Msg :=
  if fires (buttonActive b) st.anim_before then [Msg.anim "tap"] else []

/-- The number of rising edges of the posture button in a sequence of samples,
`before` being the condition in the last accepted sample so far. -/
def postureEdges (cfg : Config) : Bool → List Joy → Nat
  | _, [] => 0
  | before, j :: js =>
    if accepted cfg j then
      (if active cfg .posture j && !before then 1 else 0) +
        postureEdges cfg (active cfg .posture j) js
    else postureEdges cfg before js

/-- The first `n` values of the posture cycle after `p`. -/
def postureCycle : String → Nat → List String
  | _, 0 => []
  | p, n + 1 => nextPosture p :: postureCycle (nextPosture p) n

/-! ### Concrete inputs -/

/-- The configuration of the defaults of lines 32-34. -/
def defaultConfig : Config := {}

/-- The globals at start-up (lines 35-37). -/
def initialState : State := {}

/-- The globals at start-up, with the posture at `standing`. -/
def standingState : State := { posture := "standing" }

/-- A sample with the 90° axis pushed to `-1`. -/
def sampleTurn90 : Joy := { axes := [0, 0, 0, -1, 0], buttons := [0, 0, 0, 0] }

/-- A sample with the 180° axis pushed to `+1`. -/
def sampleTurn180 : Joy := { axes := [0, 0, 0, 0, 1], buttons := [0, 0, 0, 0] }

/-- A sample with nothing pressed and the sticks half way. -/
def sampleDrive : Joy := { axes := [0, 1 / 2, -1 / 4, 0, 0], buttons := [0, 0, 0, 0] }

/-- A sample with the posture button pressed. -/
def samplePosture : Joy := { axes := [0, 0, 0, 0, 0], buttons := [0, 0, 1, 0] }

/-- A sample with everything released. -/
def sampleRest : Joy := { axes := [0, 0, 0, 0, 0], buttons := [0, 0, 0, 0] }

/-- A sample with two axes only. -/
def sampleShort : Joy := { axes := [0, 0], buttons := [0, 0, 0, 0] }

/-- The default configuration with the 90° axis bound to index `-1`. -/
def negativeConfig : Config := { axis_90turn := -1 }

/-- The default configuration with the 180° axis bound to index `-1`. -/
def negativeTurnConfig : Config := { axis_180turn := -1 }

/-- The default configuration with the linear axis bound to index `-1`. -/
def negativeLinearConfig : Config := { axis_linear := -1 }

/-! ## `rossumo.cpp` -/

/-- The publisher members of `RosSumo` (lines 228-232). -/
inductive Pub where
  | rgb | volume | battery_percentage | posture | link_quality | alert | outdoor
deriving DecidableEq

/-- The message handed to `publish`. -/
inductive Payload where
  | int16 (data : Int)
  | string (data : String)
  | image (stamp : Nat) (data : List Nat)
deriving DecidableEq

/-- The value handed to `setParam`. -/
inductive ParamValue where
  | int (value : Nat)
  | str (value : String)
deriving DecidableEq

/-- The calls a member function of `RosSumo` makes on its collaborators, in
program order; `lightSumo` is the call of the overridden handler of the base
class. -/
inductive Act where
  | lightSumo (handler : String) (arg : Nat)
  | get_pic
  | printf (text : String)
  | publish (pub : Pub) (msg : Payload)
  | setParam (key : String) (value : ParamValue)
  | enable_pic_decoding
  | disable_pic_decoding
deriving DecidableEq

/-- The data members of `RosSumo` (lines 227-237). -/
structure RosSumo where
  advertised : List (Pub × String)
  subscribed : List String
  rgb_encoding : String
  rgb_frame_id : String
  rgb_image : List Nat
  rgb_stamp : Nat
  int_msg : Int
  string_msg : String
deriving DecidableEq

/-- What the collaborators answer during one call: the subscriber count of
`_rgb_pub`, the picture that `get_pic` stores, `ros::Time::now()`, and the labels
that `get_posture2str` and `get_alert2str` return once the base class has stored
the code. -/
structure World where
  numSubscribers : Nat
  pic : List Nat
  now : Nat
  get_posture2str : Nat → String
  get_alert2str : Nat → String

/-- The constructor `RosSumo::RosSumo` (lines 99-118): the topics it subscribes
to and the publishers it advertises, each with its topic. -/
def RosSumo.ctor : RosSumo :=
  { rgb_encoding := "bgr8"
    rgb_frame_id := "sumo_camera_frame"
    subscribed := ["cmd_vel", "anim", "set_posture", "sharp_turn", "high_jump", "long_jump"]
    advertised := [(Pub.rgb, "rgb"), (Pub.battery_percentage, "battery_percentage"),
      (Pub.posture, "posture"), (Pub.link_quality, "link_quality"), (Pub.alert, "alert"),
      (Pub.outdoor, "outdoor")]
    rgb_image := []
    rgb_stamp := 0
    int_msg := 0
    string_msg := "" }

/-- `spinOnce` (lines 126-131). -/
def RosSumo.spinOnce (_s : RosSumo) (w : World) : List Act :=
  if w.numSubscribers ≠ 0 then [Act.enable_pic_decoding] else [Act.disable_pic_decoding]

/-- `imageChanged` (lines 160-169). -/
def RosSumo.imageChanged (s : RosSumo) (w : World) : RosSumo × List Act :=
  let s := { s with rgb_image := w.pic }
  if s.rgb_image.isEmpty then (s, [Act.get_pic, Act.printf "pic empty!\n"])
  else
    let s := { s with rgb_stamp := w.now }
    (s, [Act.get_pic, Act.publish Pub.rgb (Payload.image s.rgb_stamp s.rgb_image)])

/-- `batteryChanged` (lines 173-178). -/
def RosSumo.batteryChanged (s : RosSumo) (battery_percentage : Nat) : RosSumo × List Act :=
  let s := { s with int_msg := battery_percentage }
  (s, [Act.lightSumo "batteryChanged" battery_percentage,
       Act.publish Pub.battery_percentage (Payload.int16 s.int_msg),
       Act.setParam "battery_percentage" (ParamValue.int battery_percentage)])

/-- `postureChanged` (lines 182-187). -/
def RosSumo.postureChanged (s : RosSumo) (w : World) (posture : Nat) : RosSumo × List Act :=
  let s := { s with string_msg := w.get_posture2str posture }
  (s, [Act.lightSumo "postureChanged" posture,
       Act.publish Pub.posture (Payload.string s.string_msg),
       Act.setParam "posture" (ParamValue.str s.string_msg)])

/-- `volumeChanged` (lines 191-196). -/
def RosSumo.volumeChanged (s : RosSumo) (volume : Nat) : RosSumo × List Act :=
  let s := { s with int_msg := volume }
  (s, [Act.lightSumo "volumeChanged" volume,
       Act.publish Pub.volume (Payload.int16 s.int_msg),
       Act.setParam "volume" (ParamValue.int volume)])

/-- `alertChanged` (lines 200-205). -/
def RosSumo.alertChanged (s : RosSumo) (w : World) (alert : Nat) : RosSumo × List Act :=
  let s := { s with string_msg := w.get_alert2str alert }
  (s, [Act.lightSumo "alertChanged" alert,
       Act.publish Pub.alert (Payload.string s.string_msg),
       Act.setParam "alert" (ParamValue.str s.string_msg)])

/-- `link_qualityChanged` (lines 209-214). -/
def RosSumo.link_qualityChanged (s : RosSumo) (link_quality : Nat) : RosSumo × List Act :=
  let s := { s with int_msg := link_quality }
  (s, [Act.lightSumo "link_qualityChanged" link_quality,
       Act.publish Pub.link_quality (Payload.int16 s.int_msg),
       Act.setParam "link_quality" (ParamValue.int link_quality)])

/-- `outdoorChanged` (lines 218-223). -/
def RosSumo.outdoorChanged (s : RosSumo) (outdoor : Nat) : RosSumo × List Act :=
  let s := { s with int_msg := outdoor }
  (s, [Act.lightSumo "outdoorChanged" outdoor,
       Act.publish Pub.outdoor (Payload.int16 s.int_msg),
       Act.setParam "outdoor" (ParamValue.int outdoor)])

/-- A change notification of the robot abstraction, named after the handler it calls. -/
inductive Notification where
  | batteryChanged (battery_percentage : Nat)
  | postureChanged (posture : Nat)
  | volumeChanged (volume : Nat)
  | alertChanged (alert : Nat)
  | link_qualityChanged (link_quality : Nat)
  | outdoorChanged (outdoor : Nat)
deriving DecidableEq

/-- The virtual call that a notification makes. -/
def RosSumo.notify (s : RosSumo) (w : World) : Notification → RosSumo × List Act
  | .batteryChanged v => s.batteryChanged v
  | .postureChanged v => s.postureChanged w v
  | .volumeChanged v => s.volumeChanged v
  | .alertChanged v => s.alertChanged w v
  | .link_qualityChanged v => s.link_qualityChanged v
  | .outdoorChanged v => s.outdoorChanged v

/-- A sequence of notifications, handled one after the other. -/
def RosSumo.notifyAll (s : RosSumo) (w : World) : List Notification → RosSumo × List Act
  | [] => (s, [])
  | n :: rest =>
    let r := s.notify w n
    let r2 := r.1.notifyAll w rest
    (r2.1, r.2 ++ r2.2)

/-- The messages handed to one publisher, in order. -/
def publishedOn (p : Pub) (trace : List Act) : List Payload :=
  trace.filterMap fun a => match a with
    | .publish q msg => if q = p then some msg else none
    | _ => none

/-- The messages that reach a topic: those handed to an advertised publisher. -/
def onTopics (s : RosSumo) (trace : List Act) : List (String × Payload) :=
  trace.filterMap fun a => match a with
    | .publish q msg => (s.advertised.lookup q).map fun topic => (topic, msg)
    | _ => none

/-- The messages that reach one topic, in order. -/
def onTopic (s : RosSumo) (topic : String) (trace : List Act) : List Payload :=
  ((onTopics s trace).filter fun m => decide (m.1 = topic)).map Prod.snd

/-- No message equals the message published just before it. -/
def noRepeat : List Payload → Bool
  | a :: b :: rest => (a != b) && noRepeat (b :: rest)
  | _ => true

/-- The publisher member that the handler of a notification publishes on. -/
def Notification.pub : Notification → Pub
  | .batteryChanged _ => Pub.battery_percentage
  | .postureChanged _ => Pub.posture
  | .volumeChanged _ => Pub.volume
  | .alertChanged _ => Pub.alert
  | .link_qualityChanged _ => Pub.link_quality
  | .outdoorChanged _ => Pub.outdoor

/-- The message that the handler of a notification publishes. -/
def Notification.msg (w : World) : Notification → Payload
  | .batteryChanged v => Payload.int16 v
  | .postureChanged v => Payload.string (w.get_posture2str v)
  | .volumeChanged v => Payload.int16 v
  | .alertChanged v => Payload.string (w.get_alert2str v)
  | .link_qualityChanged v => Payload.int16 v
  | .outdoorChanged v => Payload.int16 v

/-- A world with no subscriber of `rgb` and a one-byte picture. -/
def worldNoConsumer : World :=
  { numSubscribers := 0, pic := [255], now := 7,
    get_posture2str := fun _ => "unknown", get_alert2str := fun _ => "unknown" }

/-! ## Lemmas -/

theorem detectors_out (st : State) (a90 a180 : ℚ) (bj bp ba : Int) :
    (detectors st a90 a180 bj bp ba).2.1 =
      out90 st a90 ++ out180 st a180 ++ outJump st bj ++ outPosture st bp ++ outAnim st ba := by
  unfold detectors out90 out180 outJump outPosture outAnim fires axisActive buttonActive
  simp only []
  split_ifs <;> simp_all

theorem detectors_sent (st : State) (a90 a180 : ℚ) (bj bp ba : Int) :
    (detectors st a90 a180 bj bp ba).2.2 =
      (fires (axisActive a90) st.axis_90before || fires (axisActive a180) st.axis_180before ||
       fires (buttonActive bj) st.high_jump_before || fires (buttonActive bp) st.posture_before ||
       fires (buttonActive ba) st.anim_before) := by
  unfold detectors fires axisActive buttonActive
  simp only []
  split_ifs <;> simp_all

theorem detectors_state (st : State) (a90 a180 : ℚ) (bj bp ba : Int) :
    (detectors st a90 a180 bj bp ba).1 =
      { posture := if fires (buttonActive bp) st.posture_before then nextPosture st.posture else st.posture
        high_jump_before := buttonActive bj
        posture_before := buttonActive bp
        anim_before := buttonActive ba
        axis_90before := axisActive a90
        axis_180before := axisActive a180
        string_msg := if fires (buttonActive ba) st.anim_before then "tap"
          else if fires (buttonActive bp) st.posture_before then nextPosture st.posture
          else st.string_msg } := by
  unfold detectors fires axisActive buttonActive
  simp only []
  split_ifs <;> simp_all

theorem readAt_some {α : Type} (xs : List α) (i : Int) (h0 : 0 ≤ i) (h1 : i < (xs.length : Int)) :
    ∃ x, readAt xs i = some x := by
  have h : i.toNat < xs.length := by omega
  exact ⟨xs.get ⟨i.toNat, h⟩, by simp [readAt, h0, List.get?_eq_get h]⟩

theorem joy_cb_rejected (cfg : Config) (st : State) (joy : Joy) (h : accepted cfg joy = false) :
    joy_cb cfg st joy = some (st, []) := by
  unfold accepted at h
  unfold joy_cb
  by_cases h1 : (joy.axes.length : Int) ≤ cfg.maxaxis
  · simp [h1]
  · simp [h1] at h
    simp [h1, h]

theorem joy_cb_accepted (cfg : Config) (st : State) (joy : Joy) (hc : cfg.nonneg)
    (h : accepted cfg joy = true) :
    ∃ a90 a180 bj bp ba lin ang,
      readAt joy.axes cfg.axis_90turn = some a90 ∧ readAt joy.axes cfg.axis_180turn = some a180 ∧
      readAt joy.buttons cfg.button_high_jump = some bj ∧
      readAt joy.buttons cfg.button_posture = some bp ∧
      readAt joy.buttons cfg.button_anim = some ba ∧
      readAt joy.axes cfg.axis_linear = some lin ∧ readAt joy.axes cfg.axis_angular = some ang ∧
      joy_cb cfg st joy = some ((detectors st a90 a180 bj bp ba).1,
        (detectors st a90 a180 bj bp ba).2.1 ++
          if (detectors st a90 a180 bj bp ba).2.2 then [] else
            [Msg.cmd_vel { linear_x := lin * cfg.scale_linear,
                           angular_z := ang * cfg.scale_angular }]) := by
  obtain ⟨c1, c2, c3, c4, c5, c6, c7⟩ := hc
  simp only [accepted, Bool.and_eq_true, Bool.not_eq_true', decide_eq_false_iff_not, not_le] at h
  obtain ⟨ha, hb⟩ := h
  simp only [Config.maxaxis, Config.maxbutton, max_lt_iff] at ha hb
  obtain ⟨a90, h90⟩ := readAt_some joy.axes cfg.axis_90turn c3 ha.2.2.1
  obtain ⟨a180, h180⟩ := readAt_some joy.axes cfg.axis_180turn c4 ha.2.2.2
  obtain ⟨lin, hlin⟩ := readAt_some joy.axes cfg.axis_linear c1 ha.1
  obtain ⟨ang, hang⟩ := readAt_some joy.axes cfg.axis_angular c2 ha.2.1
  obtain ⟨bj, hbj⟩ := readAt_some joy.buttons cfg.button_high_jump c5 hb.2.1
  obtain ⟨bp, hbp⟩ := readAt_some joy.buttons cfg.button_posture c6 hb.2.2
  obtain ⟨ba, hba⟩ := readAt_some joy.buttons cfg.button_anim c7 hb.1
  refine ⟨a90, a180, bj, bp, ba, lin, ang, h90, h180, hbj, hbp, hba, hlin, hang, ?_⟩
  have e1 : ¬ ((joy.axes.length : Int) ≤ cfg.maxaxis) := by
    simp only [Config.maxaxis, not_le, max_lt_iff]; exact ha
  have e2 : ¬ ((joy.buttons.length : Int) ≤ cfg.maxbutton) := by
    simp only [Config.maxbutton, not_le, max_lt_iff]; exact hb
  unfold joy_cb
  rw [if_neg e1, if_neg e2, h90, h180, hbj, hbp, hba, hlin, hang]
  simp only [Option.bind_eq_bind, Option.some_bind]
  split_ifs <;> simp

theorem emitted_detectors (st : State) (a90 a180 : ℚ) (bj bp ba : Int) (d : Detector) :
    emitted d (detectors st a90 a180 bj bp ba).2.1 =
      if fires (condOf a90 a180 bj bp ba d) (st.before d) then 1 else 0 := by
  rw [detectors_out]
  unfold emitted out90 out180 outJump outPosture outAnim
  cases d <;> simp only [condOf, State.before, List.filter_append, List.length_append] <;>
    split_ifs <;> simp [Detector.owns]

theorem velocities_detectors (st : State) (a90 a180 : ℚ) (bj bp ba : Int) :
    velocities (detectors st a90 a180 bj bp ba).2.1 = [] := by
  rw [detectors_out]
  unfold out90 out180 outJump outPosture outAnim
  split_ifs <;> simp [velocities]

theorem active_of_reading (cfg : Config) (joy : Joy) (a90 a180 : ℚ) (bj bp ba : Int)
    (h : Detector.reading cfg joy a90 a180 bj bp ba) (d : Detector) :
    active cfg d joy = condOf a90 a180 bj bp ba d := by
  obtain ⟨h1, h2, h3, h4, h5⟩ := h
  cases d <;> simp [active, condOf, axisActive, buttonActive, h1, h2, h3, h4, h5]

theorem before_detectors (st : State) (a90 a180 : ℚ) (bj bp ba : Int) (d : Detector) :
    (detectors st a90 a180 bj bp ba).1.before d = condOf a90 a180 bj bp ba d := by
  rw [detectors_state]
  cases d <;> rfl

theorem sent_iff (st : State) (a90 a180 : ℚ) (bj bp ba : Int) :
    (detectors st a90 a180 bj bp ba).2.2 = true ↔
      ∃ d, fires (condOf a90 a180 bj bp ba d) (st.before d) = true := by
  rw [detectors_sent]
  simp only [Bool.or_eq_true]
  constructor
  · rintro ((((h | h) | h) | h) | h)
    · exact ⟨.turn90, h⟩
    · exact ⟨.turn180, h⟩
    · exact ⟨.high_jump, h⟩
    · exact ⟨.posture, h⟩
    · exact ⟨.anim, h⟩
  · rintro ⟨d, h⟩
    cases d
    · exact Or.inl (Or.inl (Or.inl (Or.inl h)))
    · exact Or.inl (Or.inl (Or.inl (Or.inr h)))
    · exact Or.inl (Or.inl (Or.inr h))
    · exact Or.inl (Or.inr h)
    · exact Or.inr h

/-- One accepted tick, in terms of the sample and of the flags before it. -/
theorem joy_cb_step (cfg : Config) (st : State) (joy : Joy) (hc : cfg.nonneg)
    (h : accepted cfg joy = true) :
    ∃ st' out lin ang, joy_cb cfg st joy = some (st', out) ∧
      readAt joy.axes cfg.axis_linear = some lin ∧ readAt joy.axes cfg.axis_angular = some ang ∧
      (∀ d, st'.before d = active cfg d joy) ∧
      (∀ d, emitted d out = if fires (active cfg d joy) (st.before d) then 1 else 0) ∧
      ((∃ d, fires (active cfg d joy) (st.before d) = true) → velocities out = []) ∧
      ((∀ d, fires (active cfg d joy) (st.before d) = false) → out =
        [Msg.cmd_vel { linear_x := lin * cfg.scale_linear, angular_z := ang * cfg.scale_angular }]) := by
  obtain ⟨a90, a180, bj, bp, ba, lin, ang, h1, h2, h3, h4, h5, h6, h7, hj⟩ :=
    joy_cb_accepted cfg st joy hc h
  have hr : Detector.reading cfg joy a90 a180 bj bp ba := ⟨h1, h2, h3, h4, h5⟩
  have hact := active_of_reading cfg joy a90 a180 bj bp ba hr
  refine ⟨_, _, lin, ang, hj, h6, h7, ?_, ?_, ?_, ?_⟩
  · intro d; rw [before_detectors, hact]
  · intro d
    rw [hact, ← emitted_detectors]
    unfold emitted
    rw [List.filter_append]
    split_ifs <;> cases d <;> simp [Detector.owns]
  · intro hex
    simp only [hact] at hex
    have hs := (sent_iff st a90 a180 bj bp ba).2 hex
    rw [if_pos hs]
    simpa using velocities_detectors st a90 a180 bj bp ba
  · intro hall
    simp only [hact] at hall
    have hs : ¬ (detectors st a90 a180 bj bp ba).2.2 = true := by
      intro hh
      obtain ⟨d, hd⟩ := (sent_iff st a90 a180 bj bp ba).1 hh
      rw [hall d] at hd
      exact Bool.false_ne_true hd
    rw [if_neg hs, detectors_out]
    have e1 := hall .turn90
    have e2 := hall .turn180
    have e3 := hall .high_jump
    have e4 := hall .posture
    have e5 := hall .anim
    simp only [condOf, State.before] at e1 e2 e3 e4 e5
    simp [out90, out180, outJump, outPosture, outAnim, e1, e2, e3, e4, e5]

theorem joy_cb_total (cfg : Config) (st : State) (joy : Joy) (hc : cfg.nonneg) :
    ∃ st' out, joy_cb cfg st joy = some (st', out) ∧
      ∀ d, st'.before d = if accepted cfg joy then active cfg d joy else st.before d := by
  by_cases h : accepted cfg joy = true
  · obtain ⟨st', out, _, _, hj, _, _, hb, _⟩ := joy_cb_step cfg st joy hc h
    exact ⟨st', out, hj, fun d => by rw [hb d, if_pos h]⟩
  · have h' : accepted cfg joy = false := by simpa using h
    exact ⟨st, [], joy_cb_rejected cfg st joy h', fun d => by rw [if_neg h]⟩

theorem run_append_single (cfg : Config) (pre : List Joy) (joy : Joy) :
    ∀ (st0 st st' : State) (outs : List (List Msg)) (out : List Msg),
      run cfg st0 pre = some (st, outs) → joy_cb cfg st joy = some (st', out) →
      run cfg st0 (pre ++ [joy]) = some (st', outs ++ [out]) := by
  induction pre with
  | nil =>
    intro st0 st st' outs out h1 h2
    simp only [run, Option.some.injEq, Prod.mk.injEq] at h1
    obtain ⟨rfl, rfl⟩ := h1
    simp [run, h2]
  | cons j js ih =>
    intro st0 st st' outs out h1 h2
    simp only [run, List.cons_append] at h1 ⊢
    cases hj : joy_cb cfg st0 j with
    | none => simp [hj] at h1
    | some r =>
      simp only [hj, Option.bind_eq_bind, Option.some_bind] at h1 ⊢
      cases hr : run cfg r.1 js with
      | none => simp [hr] at h1
      | some r2 =>
        simp only [hr, Option.some_bind, Option.some.injEq, Prod.mk.injEq] at h1
        obtain ⟨rfl, rfl⟩ := h1
        have e := ih r.1 r2.1 st' r2.2 out (by rw [hr]) h2
        show ((run cfg r.1 (js ++ [joy])).bind fun r2 => some (r2.1, r.2 :: r2.2)) = _
        rw [e]
        simp

theorem run_before (cfg : Config) (hc : cfg.nonneg) (js : List Joy) :
    ∀ st0 : State, ∃ st outs, run cfg st0 js = some (st, outs) ∧
      ∀ d, st.before d = match (js.filter (accepted cfg)).getLast? with
        | none => st0.before d
        | some p => active cfg d p := by
  induction js with
  | nil => intro st0; exact ⟨st0, [], rfl, fun d => by simp⟩
  | cons j js ih =>
    intro st0
    obtain ⟨st1, o1, hj, hb1⟩ := joy_cb_total cfg st0 j hc
    obtain ⟨st, outs, hr, hb⟩ := ih st1
    refine ⟨st, o1 :: outs, by simp [run, hj, hr], fun d => ?_⟩
    rw [hb d]
    have hsplit : (j :: js).filter (accepted cfg) =
        [j].filter (accepted cfg) ++ js.filter (accepted cfg) := by
      rw [← List.filter_append]; rfl
    rw [hsplit, List.getLast?_append]
    cases hl : (js.filter (accepted cfg)).getLast? with
    | some p => simp
    | none =>
      simp only [Option.or]
      rw [hb1 d]
      by_cases ha : accepted cfg j = true
      · simp [ha]
      · simp [ha]

/-- The sharp turns and the postures of one accepted tick. -/
theorem joy_cb_payloads (cfg : Config) (st : State) (joy : Joy) (hc : cfg.nonneg)
    (h : accepted cfg joy = true) :
    ∃ a90 a180 bj bp ba st' out, Detector.reading cfg joy a90 a180 bj bp ba ∧
      joy_cb cfg st joy = some (st', out) ∧
      (detectors st a90 a180 bj bp ba).2.2 = (velocities out).isEmpty ∧
      sharpTurns out =
        (if fires (axisActive a90) st.axis_90before then
          [if a90 < 0 then Angle.M_PI_2 else Angle.neg_M_PI_2] else []) ++
        (if fires (axisActive a180) st.axis_180before then
          [if a180 > 0 then Angle.two_M_PI else Angle.neg_M_PI] else []) ∧
      postures out =
        (if fires (buttonActive bp) st.posture_before then [nextPosture st.posture] else []) ∧
      st'.posture =
        (if fires (buttonActive bp) st.posture_before then nextPosture st.posture
          else st.posture) ∧
      st'.posture_before = buttonActive bp := by
  obtain ⟨a90, a180, bj, bp, ba, lin, ang, h1, h2, h3, h4, h5, h6, h7, hj⟩ :=
    joy_cb_accepted cfg st joy hc h
  refine ⟨a90, a180, bj, bp, ba, _, _, ⟨h1, h2, h3, h4, h5⟩, hj, ?_, ?_, ?_, ?_, ?_⟩
  · have hv := velocities_detectors st a90 a180 bj bp ba
    unfold velocities at hv ⊢
    rw [List.filterMap_append, hv]
    cases (detectors st a90 a180 bj bp ba).2.2 <;> simp
  · rw [detectors_out]
    unfold sharpTurns out90 out180 outJump outPosture outAnim
    split_ifs <;> simp
  · rw [detectors_out]
    unfold postures out90 out180 outJump outPosture outAnim
    split_ifs <;> simp
  · rw [detectors_state]
  · rw [detectors_state]

theorem postureCycle_one_add (p : String) (n : Nat) :
    postureCycle p (1 + n) = nextPosture p :: postureCycle (nextPosture p) n := by
  rw [Nat.add_comm]; rfl

theorem run_postures (cfg : Config) (hc : cfg.nonneg) (js : List Joy) :
    ∀ st0 : State, ∃ st outs, run cfg st0 js = some (st, outs) ∧
      postures outs.flatten = postureCycle st0.posture (postureEdges cfg st0.posture_before js) ∧
      st.posture = nextPosture^[postureEdges cfg st0.posture_before js] st0.posture := by
  induction js with
  | nil => intro st0; exact ⟨st0, [], rfl, rfl, rfl⟩
  | cons j js ih =>
    intro st0
    by_cases ha : accepted cfg j = true
    · obtain ⟨a90, a180, bj, bp, ba, st1, o1, hr, hj, _, _, hp, hpost, hpb⟩ :=
        joy_cb_payloads cfg st0 j hc ha
      have hact : active cfg .posture j = buttonActive bp :=
        active_of_reading cfg j a90 a180 bj bp ba hr .posture
      obtain ⟨st, outs, hrun, hps, hfin⟩ := ih st1
      refine ⟨st, o1 :: outs, by simp [run, hj, hrun], ?_, ?_⟩
      · have hsplit : postures (o1 :: outs).flatten = postures o1 ++ postures outs.flatten := by
          unfold postures; simp [List.filterMap_append]
        rw [hsplit, hp, hps, hpost, hpb]
        simp only [postureEdges, ha, if_true, hact]
        by_cases hf : fires (buttonActive bp) st0.posture_before = true
        · have hf' : (buttonActive bp && !st0.posture_before) = true := hf
          rw [if_pos hf, if_pos hf, if_pos hf', postureCycle_one_add]; rfl
        · have hf' : ¬ (buttonActive bp && !st0.posture_before) = true := hf
          rw [if_neg hf, if_neg hf, if_neg hf', Nat.zero_add]; rfl
      · rw [hfin, hpost, hpb]
        simp only [postureEdges, ha, if_true, hact]
        by_cases hf : fires (buttonActive bp) st0.posture_before = true
        · have hf' : (buttonActive bp && !st0.posture_before) = true := hf
          rw [if_pos hf, if_pos hf', Nat.add_comm, Function.iterate_succ_apply]
        · have hf' : ¬ (buttonActive bp && !st0.posture_before) = true := hf
          rw [if_neg hf, if_neg hf', Nat.zero_add]
    · have ha' : accepted cfg j = false := by simpa using ha
      have hj := joy_cb_rejected cfg st0 j ha'
      obtain ⟨st, outs, hrun, hps, hfin⟩ := ih st0
      refine ⟨st, [] :: outs, by simp [run, hj, hrun], ?_, ?_⟩
      · simpa [postureEdges, ha'] using hps
      · simpa [postureEdges, ha'] using hfin

/-- Under valid indices every index that an accepted tick reads is inside the
bounds of its vector. -/
theorem reads_in_bounds (cfg : Config) (joy : Joy) (hc : cfg.nonneg)
    (h : accepted cfg joy = true) :
    (∀ i ∈ [cfg.axis_90turn, cfg.axis_180turn, cfg.axis_linear, cfg.axis_angular],
      0 ≤ i ∧ i < (joy.axes.length : Int)) ∧
    (∀ i ∈ [cfg.button_high_jump, cfg.button_posture, cfg.button_anim],
      0 ≤ i ∧ i < (joy.buttons.length : Int)) := by
  obtain ⟨c1, c2, c3, c4, c5, c6, c7⟩ := hc
  simp only [accepted, Bool.and_eq_true, Bool.not_eq_true', decide_eq_false_iff_not, not_le] at h
  obtain ⟨ha, hb⟩ := h
  simp only [Config.maxaxis, Config.maxbutton, max_lt_iff] at ha hb
  constructor
  · intro i hi
    simp only [List.mem_cons, List.mem_singleton, List.not_mem_nil, or_false] at hi
    rcases hi with rfl | rfl | rfl | rfl
    · exact ⟨c3, ha.2.2.1⟩
    · exact ⟨c4, ha.2.2.2⟩
    · exact ⟨c1, ha.1⟩
    · exact ⟨c2, ha.2.1⟩
  · intro i hi
    simp only [List.mem_cons, List.mem_singleton, List.not_mem_nil, or_false] at hi
    rcases hi with rfl | rfl | rfl
    · exact ⟨c5, hb.2.1⟩
    · exact ⟨c6, hb.2.2⟩
    · exact ⟨c7, hb.1⟩

theorem notify_publishedOn (s : RosSumo) (w : World) (n : Notification) (p : Pub) :
    publishedOn p (s.notify w n).2 = if n.pub = p then [n.msg w] else [] := by
  cases n <;> simp [RosSumo.notify, RosSumo.batteryChanged, RosSumo.postureChanged,
    RosSumo.volumeChanged, RosSumo.alertChanged, RosSumo.link_qualityChanged,
    RosSumo.outdoorChanged, publishedOn, Notification.pub, Notification.msg] <;>
    split_ifs <;> simp_all

theorem notifyAll_publishedOn (w : World) (p : Pub) (ns : List Notification) :
    ∀ s : RosSumo, publishedOn p (s.notifyAll w ns).2 =
      (ns.filter fun n => decide (n.pub = p)).map (Notification.msg w) := by
  induction ns with
  | nil => intro s; rfl
  | cons n rest ih =>
    intro s
    have h : publishedOn p (s.notifyAll w (n :: rest)).2 =
        publishedOn p (s.notify w n).2 ++ publishedOn p ((s.notify w n).1.notifyAll w rest).2 := by
      simp [RosSumo.notifyAll, publishedOn, List.filterMap_append]
    rw [h, ih, notify_publishedOn]
    by_cases hp : n.pub = p
    · simp [hp]
    · simp [hp]


theorem accepted_iff (cfg : Config) (joy : Joy) :
    accepted cfg joy = true ↔
      ¬ ((joy.axes.length : Int) ≤ cfg.maxaxis) ∧ ¬ ((joy.buttons.length : Int) ≤ cfg.maxbutton) := by
  simp [accepted]

/-- An accepted tick whose reads are all inside the bounds, in terms of the five
values it reads. -/
theorem joy_cb_some (cfg : Config) (st st' : State) (joy : Joy) (out : List Msg)
    (hacc : accepted cfg joy = true) (h : joy_cb cfg st joy = some (st', out)) :
    ∃ a90 a180 bj bp ba, Detector.reading cfg joy a90 a180 bj bp ba ∧
      st' = (detectors st a90 a180 bj bp ba).1 ∧
      (((detectors st a90 a180 bj bp ba).2.2 = true ∧
          out = (detectors st a90 a180 bj bp ba).2.1) ∨
       ((detectors st a90 a180 bj bp ba).2.2 = false ∧ ∃ lin ang,
          readAt joy.axes cfg.axis_linear = some lin ∧
          readAt joy.axes cfg.axis_angular = some ang ∧
          out = (detectors st a90 a180 bj bp ba).2.1 ++
            [Msg.cmd_vel { linear_x := lin * cfg.scale_linear,
                           angular_z := ang * cfg.scale_angular }])) := by
  obtain ⟨e1, e2⟩ := (accepted_iff cfg joy).1 hacc
  unfold joy_cb at h
  rw [if_neg e1, if_neg e2] at h
  cases h1 : readAt joy.axes cfg.axis_90turn with
  | none => rw [h1] at h; simp at h
  | some a90 =>
  cases h2 : readAt joy.axes cfg.axis_180turn with
  | none => rw [h1, h2] at h; simp at h
  | some a180 =>
  cases h3 : readAt joy.buttons cfg.button_high_jump with
  | none => rw [h1, h2, h3] at h; simp at h
  | some bj =>
  cases h4 : readAt joy.buttons cfg.button_posture with
  | none => rw [h1, h2, h3, h4] at h; simp at h
  | some bp =>
  cases h5 : readAt joy.buttons cfg.button_anim with
  | none => rw [h1, h2, h3, h4, h5] at h; simp at h
  | some ba =>
  rw [h1, h2, h3, h4, h5] at h
  simp only [Option.bind_eq_bind, Option.some_bind] at h
  refine ⟨a90, a180, bj, bp, ba, ⟨h1, h2, h3, h4, h5⟩, ?_⟩
  by_cases hs : (detectors st a90 a180 bj bp ba).2.2 = true
  · rw [if_pos hs] at h
    simp only [Option.some.injEq, Prod.mk.injEq] at h
    exact ⟨h.1.symm, Or.inl ⟨hs, h.2.symm⟩⟩
  · rw [if_neg hs] at h
    cases h6 : readAt joy.axes cfg.axis_linear with
    | none => rw [h6] at h; simp at h
    | some lin =>
    cases h7 : readAt joy.axes cfg.axis_angular with
    | none => rw [h6, h7] at h; simp at h
    | some ang =>
    rw [h6, h7] at h
    simp only [Option.some_bind, Option.some.injEq, Prod.mk.injEq] at h
    refine ⟨h.1.symm, Or.inr ⟨by simpa using hs, lin, ang, rfl, rfl, h.2.symm⟩⟩

/-- An accepted tick whose reads are all inside the bounds, in terms of the sample
and of the flags before it. -/
theorem joy_cb_step_of_some (cfg : Config) (st st' : State) (joy : Joy) (out : List Msg)
    (hacc : accepted cfg joy = true) (h : joy_cb cfg st joy = some (st', out)) :
    (∀ d, st'.before d = active cfg d joy) ∧
    (∀ d, emitted d out = if fires (active cfg d joy) (st.before d) then 1 else 0) ∧
    ((∃ d, fires (active cfg d joy) (st.before d) = true) → velocities out = []) ∧
    ((∀ d, fires (active cfg d joy) (st.before d) = false) → ∃ lin ang,
      readAt joy.axes cfg.axis_linear = some lin ∧
      readAt joy.axes cfg.axis_angular = some ang ∧
      out = [Msg.cmd_vel { linear_x := lin * cfg.scale_linear,
                           angular_z := ang * cfg.scale_angular }]) := by
  obtain ⟨a90, a180, bj, bp, ba, hr, hst, hout⟩ := joy_cb_some cfg st st' joy out hacc h
  have hact := active_of_reading cfg joy a90 a180 bj bp ba hr
  have hem : ∀ d, emitted d out = emitted d (detectors st a90 a180 bj bp ba).2.1 := by
    intro d
    rcases hout with ⟨_, ho⟩ | ⟨_, lin, ang, _, _, ho⟩
    · rw [ho]
    · rw [ho]; unfold emitted; rw [List.filter_append]
      cases d <;> simp [Detector.owns]
  refine ⟨?_, ?_, ?_, ?_⟩
  · intro d; rw [hst, before_detectors, hact]
  · intro d; rw [hem d, hact, emitted_detectors]
  · intro hex
    simp only [hact] at hex
    have hs := (sent_iff st a90 a180 bj bp ba).2 hex
    rcases hout with ⟨_, ho⟩ | ⟨hs', _⟩
    · rw [ho]; exact velocities_detectors st a90 a180 bj bp ba
    · rw [hs] at hs'; exact absurd hs' (by simp)
  · intro hall
    simp only [hact] at hall
    have hs : ¬ (detectors st a90 a180 bj bp ba).2.2 = true := by
      intro hh
      obtain ⟨d, hd⟩ := (sent_iff st a90 a180 bj bp ba).1 hh
      rw [hall d] at hd
      exact Bool.false_ne_true hd
    rcases hout with ⟨hs', _⟩ | ⟨_, lin, ang, hl, ha, ho⟩
    · exact absurd hs' hs
    · refine ⟨lin, ang, hl, ha, ?_⟩
      rw [ho, detectors_out]
      have e1 := hall .turn90
      have e2 := hall .turn180
      have e3 := hall .high_jump
      have e4 := hall .posture
      have e5 := hall .anim
      simp only [condOf, State.before] at e1 e2 e3 e4 e5
      simp [out90, out180, outJump, outPosture, outAnim, e1, e2, e3, e4, e5]

/-- The flags after a run whose reads are all inside the bounds. -/
theorem run_before_of_some (cfg : Config) (js : List Joy) :
    ∀ (st0 st : State) (outs : List (List Msg)), run cfg st0 js = some (st, outs) →
      ∀ d, st.before d = match (js.filter (accepted cfg)).getLast? with
        | none => st0.before d
        | some p => active cfg d p := by
  induction js with
  | nil =>
    intro st0 st outs h d
    simp only [run, Option.some.injEq, Prod.mk.injEq] at h
    rw [← h.1]; simp
  | cons j js ih =>
    intro st0 st outs h d
    simp only [run] at h
    cases hj : joy_cb cfg st0 j with
    | none => simp [hj] at h
    | some r =>
      simp only [hj, Option.bind_eq_bind, Option.some_bind] at h
      cases hr : run cfg r.1 js with
      | none => simp [hr] at h
      | some r2 =>
        simp only [hr, Option.some_bind, Option.some.injEq, Prod.mk.injEq] at h
        have hb := ih r.1 r2.1 r2.2 (by rw [hr]) d
        rw [← h.1, hb]
        have hsplit : (j :: js).filter (accepted cfg) =
            [j].filter (accepted cfg) ++ js.filter (accepted cfg) := by
          rw [← List.filter_append]; rfl
        rw [hsplit, List.getLast?_append]
        cases hl : (js.filter (accepted cfg)).getLast? with
        | some p => simp
        | none =>
          simp only [Option.or]
          by_cases ha : accepted cfg j = true
          · have hstep := (joy_cb_step_of_some cfg st0 r.1 j r.2 ha (by rw [hj])).1 d
            simp [ha, hstep]
          · have ha' : accepted cfg j = false := by simpa using ha
            have hrej := joy_cb_rejected cfg st0 j ha'
            rw [hrej] at hj
            simp only [Option.some.injEq] at hj
            rw [← hj]
            simp [ha]

theorem onTopics_append (s : RosSumo) (t1 t2 : List Act) :
    onTopics s (t1 ++ t2) = onTopics s t1 ++ onTopics s t2 := by
  simp [onTopics, List.filterMap_append]

theorem onTopic_append (s : RosSumo) (topic : String) (t1 t2 : List Act) :
    onTopic s topic (t1 ++ t2) = onTopic s topic t1 ++ onTopic s topic t2 := by
  simp [onTopic, onTopics_append]

theorem ctor_lookup (q : Pub) :
    RosSumo.ctor.advertised.lookup q =
      match q with
      | .rgb => some "rgb"
      | .volume => none
      | .battery_percentage => some "battery_percentage"
      | .posture => some "posture"
      | .link_quality => some "link_quality"
      | .alert => some "alert"
      | .outdoor => some "outdoor" := by
  cases q <;> rfl

theorem notify_onTopic (s0 s : RosSumo) (w : World) (n : Notification) (p : Pub)
    (topic : String) (hs : s0.advertised = RosSumo.ctor.advertised)
    (hp : s0.advertised.lookup p = some topic) :
    onTopic s0 topic (s.notify w n).2 = if n.pub = p then [n.msg w] else [] := by
  rw [hs, ctor_lookup] at hp
  cases p <;> simp only [Option.some.injEq, reduceCtorEq] at hp <;> subst hp <;>
    cases n <;> simp +decide [RosSumo.notify, RosSumo.batteryChanged, RosSumo.postureChanged,
      RosSumo.volumeChanged, RosSumo.alertChanged, RosSumo.link_qualityChanged,
      RosSumo.outdoorChanged, onTopic, onTopics, hs, ctor_lookup,
      Notification.pub, Notification.msg]

theorem notifyAll_onTopic (s0 : RosSumo) (w : World) (p : Pub) (topic : String)
    (hs : s0.advertised = RosSumo.ctor.advertised)
    (hp : s0.advertised.lookup p = some topic) (ns : List Notification) :
    ∀ s : RosSumo, onTopic s0 topic (s.notifyAll w ns).2 =
      (ns.filter fun n => decide (n.pub = p)).map (Notification.msg w) := by
  induction ns with
  | nil => intro s; rfl
  | cons n rest ih =>
    intro s
    have h : (s.notifyAll w (n :: rest)).2 =
        (s.notify w n).2 ++ ((s.notify w n).1.notifyAll w rest).2 := rfl
    rw [h, onTopic_append, ih, notify_onTopic s0 s w n p topic hs hp]
    by_cases hq : n.pub = p
    · simp [hq]
    · simp [hq]

theorem notify_advertised (w : World) (n : Notification) (s : RosSumo) :
    (s.notify w n).1.advertised = s.advertised := by
  cases n <;> rfl

theorem notifyAll_advertised (w : World) (ns : List Notification) :
    ∀ s : RosSumo, (s.notifyAll w ns).1.advertised = s.advertised := by
  induction ns with
  | nil => intro s; rfl
  | cons n rest ih =>
    intro s
    show ((s.notify w n).1.notifyAll w rest).1.advertised = s.advertised
    rw [ih, notify_advertised]

/-! ### The claims on `joy_cb` -/

/-- C3, the code at the failing input. With the 90° axis bound to index `-1`
and the other bindings at their defaults, a sample of five axes and four buttons
passes both count checks of `joy_cb`, and the read `axes[axis_90turn]` of line 55
is outside the bounds. -/
theorem C3_negative_index_read_out_of_bounds :
    negativeConfig.maxaxis = 4 ∧ negativeConfig.maxbutton = 3 ∧
    accepted negativeConfig sampleRest = true ∧
    readAt sampleRest.axes negativeConfig.axis_90turn = none ∧
    joy_cb negativeConfig initialState sampleRest = none := by
  refine ⟨by decide, by decide, by decide, by simp [readAt, negativeConfig], ?_⟩
  simp [joy_cb, readAt, negativeConfig, sampleRest, Config.maxaxis, Config.maxbutton]

/-- C4. For every configuration and all globals, a sample with fewer axes than
the highest configured axis index, or fewer buttons than the highest configured
button index, leaves the globals as they are and publishes nothing. -/
theorem C4_short_sample_publishes_nothing (cfg : Config) (st : State) (joy : Joy)
    (h : (joy.axes.length : Int) < cfg.maxaxis ∨ (joy.buttons.length : Int) < cfg.maxbutton) :
    joy_cb cfg st joy = some (st, []) := by
  apply joy_cb_rejected
  unfold accepted
  rcases h with h | h
  · simp [le_of_lt h]
  · simp [le_of_lt h]

/-- C4 at a concrete input: a sample of two axes under the default configuration,
whose highest axis index is four. -/
theorem C4_short_sample_publishes_nothing_witness :
    ((sampleShort.axes.length : Int) < defaultConfig.maxaxis ∨
      (sampleShort.buttons.length : Int) < defaultConfig.maxbutton) ∧
    joy_cb defaultConfig initialState sampleShort = some (initialState, []) :=
  ⟨Or.inl (by decide),
    C4_short_sample_publishes_nothing defaultConfig initialState sampleShort
      (Or.inl (by decide))⟩

/-- C6, as stated, fails: with no subscriber of `rgb`, `imageChanged` asks for
the picture and, the picture being non-empty, publishes it. -/
theorem C6_frame_requested_without_consumer :
    worldNoConsumer.numSubscribers = 0 ∧
    (RosSumo.ctor.imageChanged worldNoConsumer).2 =
      [Act.get_pic, Act.publish Pub.rgb (Payload.image 7 [255])] ∧
    onTopics RosSumo.ctor (RosSumo.ctor.imageChanged worldNoConsumer).2 =
      [("rgb", Payload.image 7 [255])] := by
  decide

/-- C6, amended. `imageChanged` asks for the picture on every call, whatever the
number of subscribers: a non-empty picture is stamped with the current time and
published on `rgb`, an empty one is reported and nothing is published. The
number of subscribers is read by `spinOnce` alone, which enables the decoding
when it is positive and disables it when it is zero. -/
theorem C6_frame_request_unconditional (s : RosSumo) (w : World) :
    (s.imageChanged w).2.head? = some Act.get_pic ∧
    (w.pic ≠ [] → (s.imageChanged w).2 =
      [Act.get_pic, Act.publish Pub.rgb (Payload.image w.now w.pic)]) ∧
    (w.pic = [] → (s.imageChanged w).2 = [Act.get_pic, Act.printf "pic empty!\n"] ∧
      publishedOn Pub.rgb (s.imageChanged w).2 = []) ∧
    (0 < w.numSubscribers → s.spinOnce w = [Act.enable_pic_decoding]) ∧
    (w.numSubscribers = 0 → s.spinOnce w = [Act.disable_pic_decoding]) := by
  refine ⟨?_, ?_, ?_, ?_, ?_⟩
  · unfold RosSumo.imageChanged
    simp only []
    split_ifs <;> rfl
  · intro h
    simp [RosSumo.imageChanged, h]
  · intro h
    simp [RosSumo.imageChanged, h, publishedOn]
  · intro h
    simp [RosSumo.spinOnce, Nat.pos_iff_ne_zero.mp h]
  · intro h
    simp [RosSumo.spinOnce, h]

/-- C7, as stated, fails: two `batteryChanged` notifications with the value 50
publish 50 twice in a row on the topic `battery_percentage`. -/
theorem C7_duplicate_published :
    onTopic RosSumo.ctor "battery_percentage"
      (RosSumo.ctor.notifyAll worldNoConsumer
        [Notification.batteryChanged 50, Notification.batteryChanged 50]).2 =
      [Payload.int16 50, Payload.int16 50] ∧
    noRepeat (onTopic RosSumo.ctor "battery_percentage"
      (RosSumo.ctor.notifyAll worldNoConsumer
        [Notification.batteryChanged 50, Notification.batteryChanged 50]).2) = false := by
  decide

/-- C7, amended. Take a bridge with the publishers that the constructor
advertises, a publisher among them and its topic. For every sequence of change
notifications, the messages that reach the topic are the messages of the
notifications of the handler of that publisher (the notified value for battery,
link quality and outdoor, the label of the notified code for posture and alert),
one for each notification and in their order; so a message equal to the last one
on the topic is published exactly when two successive notifications of the
handler give equal messages. For battery, link quality and outdoor the messages
are equal exactly when the values are. The handlers leave the advertised
publishers as they are. Nothing is said of `volumeChanged`, whose publisher is
not advertised. -/
theorem C7_one_publish_per_notification (s : RosSumo) (w : World) (ns : List Notification)
    (p : Pub) (topic : String) (hs : s.advertised = RosSumo.ctor.advertised)
    (hp : s.advertised.lookup p = some topic) :
    onTopic s topic (s.notifyAll w ns).2 =
      (ns.filter fun n => decide (n.pub = p)).map (Notification.msg w) ∧
    noRepeat (onTopic s topic (s.notifyAll w ns).2) =
      noRepeat ((ns.filter fun n => decide (n.pub = p)).map (Notification.msg w)) ∧
    (s.notifyAll w ns).1.advertised = s.advertised ∧
    (∀ a b : Nat, Notification.msg w (Notification.batteryChanged a) =
      Notification.msg w (Notification.batteryChanged b) ↔ a = b) ∧
    (∀ a b : Nat, Notification.msg w (Notification.link_qualityChanged a) =
      Notification.msg w (Notification.link_qualityChanged b) ↔ a = b) ∧
    (∀ a b : Nat, Notification.msg w (Notification.outdoorChanged a) =
      Notification.msg w (Notification.outdoorChanged b) ↔ a = b) := by
  have h := notifyAll_onTopic s w p topic hs hp ns s
  refine ⟨h, by rw [h], notifyAll_advertised w ns s, ?_, ?_, ?_⟩ <;>
    intro a b <;> simp [Notification.msg]

/-- C7, amended, at a concrete input: a fresh bridge, the topic
`battery_percentage`, and the battery notified at 50 and 60 with a volume
notification in between. -/
theorem C7_one_publish_per_notification_witness :
    RosSumo.ctor.advertised = RosSumo.ctor.advertised ∧
    RosSumo.ctor.advertised.lookup Pub.battery_percentage = some "battery_percentage" ∧
    onTopic RosSumo.ctor "battery_percentage"
      (RosSumo.ctor.notifyAll worldNoConsumer [Notification.batteryChanged 50,
        Notification.volumeChanged 3, Notification.batteryChanged 60]).2 =
      [Payload.int16 50, Payload.int16 60] := by
  have h := (C7_one_publish_per_notification RosSumo.ctor worldNoConsumer
    [Notification.batteryChanged 50, Notification.volumeChanged 3,
      Notification.batteryChanged 60] Pub.battery_percentage "battery_percentage" rfl rfl).1
  exact ⟨rfl, rfl, h⟩

/-- C10, the code at the failing input. The constructor advertises six
publishers, `_volume_pub` not among them; `volumeChanged 50` hands its message
to `_volume_pub`, so the message reaches no topic, while the message of
`batteryChanged 50` reaches `battery_percentage`. -/
theorem C10_volume_publisher_not_advertised :
    RosSumo.ctor.advertised.map Prod.fst =
      [Pub.rgb, Pub.battery_percentage, Pub.posture, Pub.link_quality, Pub.alert,
        Pub.outdoor] ∧
    RosSumo.ctor.advertised.lookup Pub.volume = none ∧
    publishedOn Pub.volume (RosSumo.ctor.volumeChanged 50).2 = [Payload.int16 50] ∧
    onTopics RosSumo.ctor (RosSumo.ctor.volumeChanged 50).2 = [] ∧
    onTopics RosSumo.ctor (RosSumo.ctor.batteryChanged 50).2 =
      [("battery_percentage", Payload.int16 50)] := by
  decide

end Rossumo
